import Mathlib

set_option linter.unusedVariables false

/-!
Formal model of the screenshot application's capture pipeline: the cropping-box
selection (GUI/screenshot_widgets.py), the crop transform and collision-safe
file persistence (backend/screenshot_creation.py), and the screenshot widgets
that orchestrate them.  Python integers are modelled as Int or Nat, rasters as
a size plus a pixel lookup, the file system as an explicit record threaded
through the functions, and Python exceptions as explicit outcome values.
-/

/-- Python exception values the modelled code can produce.  `valueError`,
`fileNotFoundError`, `permissionError` and `typeError` stand for the built-in
exception classes; `croppingError`, `invalidFileFormat` and `invalidFilePath`
stand for the application classes in errors/errors.py (CroppingError and
InvalidFileFormat subclass ValueError, InvalidFilePathError subclasses
FileNotFoundError).  `fuelExhausted` is an artifact of modelling the unbounded
while-loop of save_screenshot with fuel; `save_loop_total` below shows it is
never produced at the fuel bound used. -/
inductive PyExn where
  | valueError
  | fileNotFoundError
  | permissionError
  | typeError
  | croppingError
  | invalidFileFormat
  | invalidFilePath
  | fuelExhausted
deriving DecidableEq

/-- CroppingWindow.mark_cropping_box (GUI/screenshot_widgets.py), after the
modal wait: the cropping box holds the press corner (a, b) in entries 0 and 1
and the release corner (c, d) in entries 2 and 3; the two x entries are swapped
when taken in reverse order, then the two y entries; finally each axis whose
two entries ended up equal is widened by one pixel.  Mirrors the statements
following canvas.wait_variable in the source. -/
def mark_cropping_box (a b c d : Int) : Int × Int × Int × Int :=
  let sx := if a > c then (c, a) else (a, c)
  let sy := if b > d then (d, b) else (b, d)
  let x1 := if sx.1 = sx.2 then sx.2 + 1 else sx.2
  let y1 := if sy.1 = sy.2 then sy.2 + 1 else sy.2
  (sx.1, sy.1, x1, y1)

/-- The normalization algorithm exactly as the specification words it: if
x0 > x1 swap so that x0 ≤ x1, if y0 > y1 swap so that y0 ≤ y1, then increment
x1 when x0 == x1, and increment y1 when y0 == y1. -/
def spec_normalize (x0 y0 x1 y1 : Int) : Int × Int × Int × Int :=
  let px := if x0 > x1 then (x1, x0) else (x0, x1)
  let py := if y0 > y1 then (y1, y0) else (y0, y1)
  let qx := if px.1 = px.2 then (px.1, px.2 + 1) else px
  let qy := if py.1 = py.2 then (py.1, py.2 + 1) else py
  (qx.1, qy.1, qx.2, qy.2)

theorem mark_cropping_box_eval (a b c d : Int) :
    mark_cropping_box a b c d =
      (min a c, min b d,
       if a = c then a + 1 else max a c,
       if b = d then b + 1 else max b d) := by
  unfold mark_cropping_box
  dsimp only
  split_ifs <;> simp_all [Prod.ext_iff] <;> omega

theorem spec_normalize_eval (a b c d : Int) :
    spec_normalize a b c d =
      (min a c, min b d,
       if a = c then a + 1 else max a c,
       if b = d then b + 1 else max b d) := by
  unfold spec_normalize
  dsimp only
  split_ifs <;> simp_all [Prod.ext_iff] <;> omega

/-- Claim C1: for every press corner (a, b) and release corner (c, d),
mark_cropping_box returns exactly the box the specified normalization
algorithm produces (swap each axis into order, then widen a degenerate axis by
one); consequently x0 < x1 and y0 < y1 always hold, a degenerate click yields
(a, b, a+1, b+1), the box is order-independent in its two corners, and each
coordinate pair is the min and the max of the recorded coordinates, the max
possibly incremented by one. -/
theorem mark_cropping_box_correct (a b c d : Int) :
    mark_cropping_box a b c d = spec_normalize a b c d
    ∧ (∀ x0 y0 x1 y1 : Int, mark_cropping_box a b c d = (x0, y0, x1, y1) →
        x0 < x1 ∧ y0 < y1
        ∧ x0 = min a c ∧ y0 = min b d
        ∧ (x1 = max a c ∨ x1 = max a c + 1)
        ∧ (y1 = max b d ∨ y1 = max b d + 1))
    ∧ (a = c → b = d → mark_cropping_box a b c d = (a, b, a + 1, b + 1))
    ∧ mark_cropping_box a b c d = mark_cropping_box c d a b := by
  refine ⟨by rw [mark_cropping_box_eval, spec_normalize_eval], ?_, ?_, ?_⟩
  · intro x0 y0 x1 y1 h
    rw [mark_cropping_box_eval] at h
    rw [Prod.ext_iff, Prod.ext_iff, Prod.ext_iff] at h
    obtain ⟨h0, h1, h2, h3⟩ := h
    dsimp only at h0 h1 h2 h3
    subst h0 h1
    constructor
    · split_ifs at h2 <;> omega
    constructor
    · split_ifs at h3 <;> omega
    refine ⟨rfl, rfl, ?_, ?_⟩
    · split_ifs at h2 <;> omega
    · split_ifs at h3 <;> omega
  · intro hac hbd
    subst hac hbd
    rw [mark_cropping_box_eval]
    simp [Prod.ext_iff]
  · rw [mark_cropping_box_eval, mark_cropping_box_eval]
    have hmin : min a c = min c a := by omega
    have hmin2 : min b d = min d b := by omega
    have hmax : max a c = max c a := by omega
    have hmax2 : max b d = max d b := by omega
    rw [hmin, hmin2, hmax, hmax2]
    by_cases hac : a = c <;> by_cases hbd : b = d <;>
      simp [hac, hbd, eq_comm, Prod.ext_iff]

/-- Concrete instance of mark_cropping_box_correct at a degenerate click. -/
theorem mark_cropping_box_correct_witness :
    mark_cropping_box 7 5 7 5 = spec_normalize 7 5 7 5
    ∧ (∀ x0 y0 x1 y1 : Int, mark_cropping_box 7 5 7 5 = (x0, y0, x1, y1) →
        x0 < x1 ∧ y0 < y1
        ∧ x0 = min 7 7 ∧ y0 = min 5 5
        ∧ (x1 = max 7 7 ∨ x1 = max 7 7 + 1)
        ∧ (y1 = max 5 5 ∨ y1 = max 5 5 + 1))
    ∧ ((7 : Int) = 7 → (5 : Int) = 5 → mark_cropping_box 7 5 7 5 = (7, 5, 7 + 1, 5 + 1))
    ∧ mark_cropping_box 7 5 7 5 = mark_cropping_box 7 5 7 5 :=
  mark_cropping_box_correct 7 5 7 5

/-- An in-memory raster: a width, a height, and a pixel lookup.  `pix` is a
total function; only values inside the width × height grid are meaningful, and
`Raster.getpixel` reads 0 outside the grid (the zero fill PIL uses for regions
of a crop that fall outside the source image). -/
structure Raster where
  width : Nat
  height : Nat
  pix : Int → Int → Int

def Raster.getpixel (r : Raster) (x y : Int) : Int :=
  if 0 ≤ x ∧ x < (r.width : Int) ∧ 0 ≤ y ∧ y < (r.height : Int) then r.pix x y else 0

/-- Model of the third-party PIL Image.crop call used by
CroppedMonitorScreenshot.edit_screenshot.  PIL raises ValueError when the
right coordinate is below the left one or the lower coordinate is below the
upper one; every other box — including one lying partly or fully outside the
image — is accepted, and the result is an (x1-x0) × (y1-y0) image whose pixel
(i, j) is source pixel (x0+i, y0+j), zero (black) where that point falls
outside the source. -/
def pilCrop (r : Raster) (box : Int × Int × Int × Int) : Except PyExn Raster :=
  if box.2.2.1 < box.1 then .error .valueError
  else if box.2.2.2 < box.2.1 then .error .valueError
  else .ok { width := (box.2.2.1 - box.1).toNat,
             height := (box.2.2.2 - box.2.1).toNat,
             pix := fun i j => r.getpixel (box.1 + i) (box.2.1 + j) }

/-- The attributes of a Screenshot object (backend/screenshot_creation.py):
save_dir and file_format set by __init__, plus the private _image and
_image_file_path fields, both initialised to None. -/
structure ScreenshotState where
  save_dir : String
  file_format : String
  image : Option Raster
  image_file_path : Option String

/-- Result of calling a possibly raising method on a Screenshot object: the
exception raised, if any, and the state of the object afterwards (Python keeps
whatever mutation happened before the raise; the modelled methods assign their
attributes only after the fallible work succeeds). -/
structure Outcome where
  exn : Option PyExn
  state : ScreenshotState

/-- CroppedMonitorScreenshot.edit_screenshot: load self.image into PIL
(np.uint8 applied to None raises TypeError when no image was taken), crop it
by box, and replace the stored image with the result; a ValueError from the
crop is re-raised as CroppingError.  The stored image is reassigned only after
a successful crop, never mutated in place. -/
def cropped_edit_screenshot (s : ScreenshotState) (box : Int × Int × Int × Int) : Outcome :=
  match s.image with
  | none => { exn := some .typeError, state := s }
  | some r =>
    match pilCrop r box with
    | .ok r2 => { exn := none, state := { s with image := some r2 } }
    | .error _ => { exn := some .croppingError, state := s }

/-- Claim C2: for a stored raster of size W × H and a box
(x0, y0, x1, y1) with 0 ≤ x0 < x1 ≤ W and 0 ≤ y0 < y1 ≤ H,
edit_screenshot succeeds and replaces the stored image by a raster of size
exactly (x1-x0) × (y1-y0) whose pixel (i, j) equals pixel (x0+i, y0+j) of the
source: half-open rectangle semantics, left/top inclusive and right/bottom
exclusive. -/
theorem cropped_edit_screenshot_in_bounds (s : ScreenshotState) (r : Raster)
    (x0 y0 x1 y1 : Int)
    (himg : s.image = some r)
    (hx0 : 0 ≤ x0) (hx : x0 < x1) (hxw : x1 ≤ (r.width : Int))
    (hy0 : 0 ≤ y0) (hy : y0 < y1) (hyh : y1 ≤ (r.height : Int)) :
    ∃ r2 : Raster,
      cropped_edit_screenshot s (x0, y0, x1, y1) =
        { exn := none, state := { s with image := some r2 } }
      ∧ (r2.width : Int) = x1 - x0 ∧ (r2.height : Int) = y1 - y0
      ∧ ∀ i j : Int, 0 ≤ i → i < (r2.width : Int) → 0 ≤ j → j < (r2.height : Int) →
          r2.getpixel i j = r.getpixel (x0 + i) (y0 + j) := by
  have hxc : ¬ ((x0, y0, x1, y1).2.2.1 < (x0, y0, x1, y1).1) := by dsimp only; omega
  have hyc : ¬ ((x0, y0, x1, y1).2.2.2 < (x0, y0, x1, y1).2.1) := by dsimp only; omega
  refine ⟨{ width := (x1 - x0).toNat, height := (y1 - y0).toNat,
            pix := fun i j => r.getpixel (x0 + i) (y0 + j) }, ?_, ?_, ?_, ?_⟩
  · unfold cropped_edit_screenshot pilCrop
    rw [himg]
    dsimp only at hxc hyc ⊢
    rw [if_neg hxc, if_neg hyc]
  · dsimp only
    omega
  · dsimp only
    omega
  · intro i j hi0 hiw hj0 hjh
    dsimp only at hiw hjh ⊢
    unfold Raster.getpixel
    dsimp only
    rw [if_pos ⟨hi0, hiw, hj0, hjh⟩]

/-- A concrete 4 × 3 test raster whose pixel values encode their coordinates. -/
def testRaster : Raster :=
  { width := 4, height := 3, pix := fun x y => x + 10 * y }

/-- A concrete CroppedMonitorScreenshot state holding testRaster. -/
def testCroppedState : ScreenshotState :=
  { save_dir := "shots", file_format := "png", image := some testRaster,
    image_file_path := none }

/-- Concrete instance of cropped_edit_screenshot_in_bounds: cropping the 4 × 3
test raster by the in-bounds box (1, 0, 3, 2). -/
theorem cropped_edit_screenshot_in_bounds_witness :
    testCroppedState.image = some testRaster
    ∧ ∃ r2 : Raster,
      cropped_edit_screenshot testCroppedState (1, 0, 3, 2) =
        { exn := none, state := { testCroppedState with image := some r2 } }
      ∧ (r2.width : Int) = 3 - 1 ∧ (r2.height : Int) = 2 - 0
      ∧ ∀ i j : Int, 0 ≤ i → i < (r2.width : Int) → 0 ≤ j → j < (r2.height : Int) →
          r2.getpixel i j = testRaster.getpixel (1 + i) (0 + j) :=
  ⟨rfl, cropped_edit_screenshot_in_bounds testCroppedState testRaster 1 0 3 2 rfl
    (by decide) (by decide) (by decide) (by decide) (by decide) (by decide)⟩

/-- Claim C3 counterexample: the box (0, 0, 5, 3) lies partially outside the
bounds of the 4 × 3 test raster, yet edit_screenshot does not fail with
CroppingError: the underlying PIL crop accepts any correctly ordered box,
padding the region outside the source, so the call succeeds. -/
theorem cropped_edit_screenshot_out_of_bounds_cex :
    (testRaster.width : Int) < 5
    ∧ (cropped_edit_screenshot testCroppedState (0, 0, 5, 3)).exn = none := by
  exact ⟨by decide, rfl⟩

/-- Claim C3 amended: edit_screenshot fails with CroppingError — leaving the
whole object state unchanged — exactly when the box is mis-ordered (x1 < x0 or
y1 < y0), the only case in which the underlying PIL crop raises ValueError.  A
correctly ordered box, even one partially or fully outside the raster bounds,
succeeds and replaces the stored image with a raster of the requested
(x1-x0) × (y1-y0) size whose pixels read from the source and are zero outside
it.  In no case is the previous raster mutated in place. -/
theorem cropped_edit_screenshot_behavior (s : ScreenshotState) (r : Raster)
    (x0 y0 x1 y1 : Int) (himg : s.image = some r) :
    ((x1 < x0 ∨ y1 < y0) →
      cropped_edit_screenshot s (x0, y0, x1, y1) =
        { exn := some .croppingError, state := s })
    ∧ (x0 ≤ x1 → y0 ≤ y1 →
      ∃ r2 : Raster,
        cropped_edit_screenshot s (x0, y0, x1, y1) =
          { exn := none, state := { s with image := some r2 } }
        ∧ r2.width = (x1 - x0).toNat ∧ r2.height = (y1 - y0).toNat
        ∧ ∀ i j : Int, r2.pix i j = r.getpixel (x0 + i) (y0 + j)) := by
  constructor
  · intro hor
    unfold cropped_edit_screenshot pilCrop
    rw [himg]
    dsimp only
    by_cases hx : x1 < x0
    · rw [if_pos hx]
    · rw [if_neg hx, if_pos (by omega)]
  · intro hx hy
    refine ⟨{ width := (x1 - x0).toNat, height := (y1 - y0).toNat,
              pix := fun i j => r.getpixel (x0 + i) (y0 + j) },
            ?_, rfl, rfl, fun i j => rfl⟩
    unfold cropped_edit_screenshot pilCrop
    rw [himg]
    dsimp only
    rw [if_neg (by omega), if_neg (by omega)]

/-- Concrete instance of cropped_edit_screenshot_behavior at the out-of-bounds
ordered box (0, 0, 5, 3) on the 4 × 3 test raster. -/
theorem cropped_edit_screenshot_behavior_witness :
    testCroppedState.image = some testRaster
    ∧ (((5 : Int) < 0 ∨ (3 : Int) < 0) →
      cropped_edit_screenshot testCroppedState (0, 0, 5, 3) =
        { exn := some .croppingError, state := testCroppedState })
    ∧ ((0 : Int) ≤ 5 → (0 : Int) ≤ 3 →
      ∃ r2 : Raster,
        cropped_edit_screenshot testCroppedState (0, 0, 5, 3) =
          { exn := none, state := { testCroppedState with image := some r2 } }
        ∧ r2.width = ((5 : Int) - 0).toNat ∧ r2.height = ((3 : Int) - 0).toNat
        ∧ ∀ i j : Int, r2.pix i j = testRaster.getpixel (0 + i) (0 + j)) :=
  ⟨rfl, (cropped_edit_screenshot_behavior testCroppedState testRaster 0 0 5 3 rfl).1,
        (cropped_edit_screenshot_behavior testCroppedState testRaster 0 0 5 3 rfl).2⟩

/-- The character substitution save_screenshot applies to str(datetime.now())
via re.sub: every ':', '.' and ' ' becomes '-'. -/
def subSeparator (c : Char) : Char :=
  if c = ':' ∨ c = '.' ∨ c = ' ' then '-' else c

/-- The timestamp string after the substitution. -/
def sanitizeTimestamp (ts : String) : String :=
  String.mk (ts.data.map subSeparator)

/-- The f-string of save_screenshot building file_path: the save directory, a
slash, the sanitized timestamp, the current collision suffix c_str, a dot and
the configured file format. -/
def candidatePath (save_dir ts c_str fmt : String) : String :=
  save_dir ++ "/" ++ sanitizeTimestamp ts ++ c_str ++ "." ++ fmt

/-- The loop variable c_str as a function of the loop counter count: empty on
the first attempt (count = 1, the initial value), then an underscore followed
by the decimal rendering of the counter. -/
def countSuffix (count : Nat) : String :=
  if count = 1 then "" else "_" ++ Nat.repr count

/-- The while-loop of save_screenshot: build file_path from the current
c_str, stop as soon as the path does not exist yet, otherwise increment count
and retry with the suffix of the new count.  The unbounded Python loop is
modelled with fuel; save_loop_total shows the fuel used by save_screenshot is
always sufficient.  Besides the free path the model also returns the counter
value at which it was found. -/
def save_loop (save_dir ts fmt : String) (files : List String) :
    Nat → Nat → String → Option (String × Nat)
  | 0, _, _ => none
  | fuel + 1, count, c_str =>
    let file_path := candidatePath save_dir ts c_str fmt
    if file_path ∈ files then
      save_loop save_dir ts fmt files fuel (count + 1) ("_" ++ Nat.repr (count + 1))
    else
      some (file_path, count)

/-- The parts of the outside world that save_screenshot touches: the list of
existing file paths, which directories exist and are writable, and the string
datetime.now() renders to.  One call is modelled at a single timestamp — now
is constant for the duration of the call, i.e. the call completes within one
wall-clock timestamp resolution. -/
structure FileSystem where
  files : List String
  dirExists : String → Bool
  dirWritable : String → Bool
  now : String

/-- SupportedImageFormats (backend/settings.py): the value strings of the enum
members png/PNG, jpeg/JPEG/jpg/JPG and bmp/BMP.  Settings validation accepts
exactly these; save_screenshot itself never consults this set. -/
def SupportedImageFormats : List String :=
  ["png", "PNG", "jpeg", "JPEG", "jpg", "JPG", "bmp", "BMP"]

/-- Character-wise lowercasing of a string. -/
def toLowerStr (s : String) : String := String.mk (s.data.map Char.toLower)

/-- Extensions for which the third-party imageio library has a writer.  Model
of imageio.imwrite format resolution: a writer is looked up from the
lowercased file extension before any file is created, and a ValueError is
raised when none exists.  The list is a representative fragment of the real
registry, sufficient for the modelled pipeline; note that it strictly exceeds
the application's SupportedImageFormats — in particular, tiff is writable. -/
def imageioWritableExt (ext : String) : Bool :=
  toLowerStr ext ∈ ["png", "jpeg", "jpg", "bmp", "tif", "tiff", "gif", "ppm", "pgm"]

/-- Model of the third-party imageio.imwrite call, in the order the library
performs the work: the Request object built first checks that the target
directory exists and raises FileNotFoundError when it does not, before any
format handling; only then is a writer resolved from the extension (ValueError
when there is none); finally the file is created inside the directory
(PermissionError when it is not writable).  Every failure happens before or
during file creation, so a failing call leaves the file list unchanged; a
successful call adds exactly the written path. -/
def imwrite (fs : FileSystem) (dir ext path : String) : Except PyExn FileSystem :=
  if ¬ fs.dirExists dir then .error .fileNotFoundError
  else if ¬ imageioWritableExt ext then .error .valueError
  else if ¬ fs.dirWritable dir then .error .permissionError
  else .ok { fs with files := path :: fs.files }

/-- Result of one save_screenshot call: the exception raised, if any, the
state of the Screenshot object afterwards, and the file system afterwards. -/
structure SaveOutcome where
  exn : Option PyExn
  state : ScreenshotState
  fs : FileSystem

/-- MonitorScreenshot.save_screenshot: loop until a collision-free file path
is found (save_loop, starting from count = 1 with an empty suffix), write the
image there, and record the final path in _image_file_path.  A ValueError
raised by the write is re-raised as InvalidFileFormat and a FileNotFoundError
as InvalidFilePathError; any other exception (e.g. PermissionError from an
unwritable directory) propagates unchanged.  _image_file_path is assigned only
after a successful write, and _image is never touched, so a failing call
leaves the object exactly as it was. -/
def save_screenshot (s : ScreenshotState) (fs : FileSystem) : SaveOutcome :=
  match save_loop s.save_dir fs.now s.file_format fs.files (fs.files.length + 1) 1 "" with
  | none => { exn := some .fuelExhausted, state := s, fs := fs }
  | some (file_path, _) =>
    match imwrite fs s.save_dir s.file_format file_path with
    | .ok fs2 =>
      { exn := none, state := { s with image_file_path := some file_path }, fs := fs2 }
    | .error .valueError => { exn := some .invalidFileFormat, state := s, fs := fs }
    | .error .fileNotFoundError => { exn := some .invalidFilePath, state := s, fs := fs }
    | .error e => { exn := some e, state := s, fs := fs }

/-- Numeric value of a decimal digit character. -/
def digitVal (c : Char) : Nat := c.toNat - '0'.toNat

/-- One step of reading a decimal numeral left to right. -/
def decodeStep (a : Nat) (c : Char) : Nat := 10 * a + digitVal c

theorem digitVal_digitChar : ∀ d, d < 10 → digitVal (Nat.digitChar d) = d := by decide

theorem foldl_decodeStep_toDigitsCore :
    ∀ fuel n ds a, n < fuel →
      List.foldl decodeStep a (Nat.toDigitsCore 10 fuel n ds)
        = List.foldl decodeStep (a * 10 ^ (Nat.log 10 n + 1) + n) ds := by
  intro fuel
  induction fuel with
  | zero => intro n ds a h; exact absurd h (Nat.not_lt_zero n)
  | succ fuel ih =>
    intro n ds a h
    have hunfold : Nat.toDigitsCore 10 (fuel + 1) n ds =
        if n / 10 = 0 then Nat.digitChar (n % 10) :: ds
        else Nat.toDigitsCore 10 fuel (n / 10) (Nat.digitChar (n % 10) :: ds) := rfl
    by_cases hn : n / 10 = 0
    · have hlt : n < 10 := by omega
      have hlog : Nat.log 10 n = 0 := Nat.log_eq_zero_iff.mpr (Or.inl hlt)
      rw [hunfold, if_pos hn, List.foldl_cons]
      congr 1
      unfold decodeStep
      rw [digitVal_digitChar (n % 10) (by omega), hlog]
      omega
    · have hge : 10 ≤ n := by omega
      have hfuel : n / 10 < fuel := by
        have : n / 10 < n := Nat.div_lt_self (by omega) (by omega)
        omega
      rw [hunfold, if_neg hn, ih (n / 10) _ a hfuel, List.foldl_cons]
      congr 1
      unfold decodeStep
      rw [digitVal_digitChar (n % 10) (by omega)]
      have hlog : Nat.log 10 n = Nat.log 10 (n / 10) + 1 := by
        have h1 := Nat.log_div_base 10 n
        have h2 := Nat.log_pos (b := 10) (by norm_num) hge
        omega
      rw [hlog]
      have hpow : (10 : ℕ) ^ (Nat.log 10 (n / 10) + 1 + 1)
          = 10 ^ (Nat.log 10 (n / 10) + 1) * 10 := pow_succ 10 _
      rw [hpow]
      have hswap : a * (10 ^ (Nat.log 10 (n / 10) + 1) * 10)
          = 10 * (a * 10 ^ (Nat.log 10 (n / 10) + 1)) := by ring
      rw [hswap]
      omega

theorem decode_repr (n : Nat) : List.foldl decodeStep 0 (Nat.repr n).data = n := by
  have h : (Nat.repr n).data = Nat.toDigitsCore 10 (n + 1) n [] := rfl
  rw [h, foldl_decodeStep_toDigitsCore (n + 1) n [] 0 (Nat.lt_succ_self n)]
  simp

theorem nat_repr_inj (n m : Nat) (h : Nat.repr n = Nat.repr m) : n = m := by
  have h2 : (Nat.repr n).data = (Nat.repr m).data := by rw [h]
  have hn := decode_repr n
  have hm := decode_repr m
  rw [h2] at hn
  omega

theorem countSuffix_inj (n m : Nat) (hn : 1 ≤ n) (hm : 1 ≤ m)
    (h : countSuffix n = countSuffix m) : n = m := by
  unfold countSuffix at h
  by_cases h1 : n = 1 <;> by_cases h2 : m = 1
  · omega
  · rw [if_pos h1, if_neg h2] at h
    have hlen := congrArg String.length h
    rw [String.length_append] at hlen
    have e1 : ("" : String).length = 0 := rfl
    have e2 : ("_" : String).length = 1 := rfl
    rw [e1, e2] at hlen
    omega
  · rw [if_neg h1, if_pos h2] at h
    have hlen := congrArg String.length h
    rw [String.length_append] at hlen
    have e1 : ("" : String).length = 0 := rfl
    have e2 : ("_" : String).length = 1 := rfl
    rw [e1, e2] at hlen
    omega
  · rw [if_neg h1, if_neg h2] at h
    have hd := congrArg String.data h
    simp only [String.data_append] at hd
    have hrepr : (Nat.repr n).data = (Nat.repr m).data := List.append_cancel_left hd
    exact nat_repr_inj n m (String.ext hrepr)

theorem candidatePath_inj_suffix (d ts fmt c1 c2 : String)
    (h : candidatePath d ts c1 fmt = candidatePath d ts c2 fmt) : c1 = c2 := by
  unfold candidatePath at h
  have hd := congrArg String.data h
  simp only [String.data_append, List.append_assoc] at hd
  have h1 := List.append_cancel_left hd
  have h2 := List.append_cancel_left h1
  have h3 := List.append_cancel_left h2
  rw [← List.append_assoc, ← List.append_assoc] at h3
  have h4 := List.append_cancel_right (List.append_cancel_right h3)
  exact String.ext h4

theorem countSuffix_succ (count : Nat) (h : 1 ≤ count) :
    ("_" ++ Nat.repr (count + 1)) = countSuffix (count + 1) := by
  unfold countSuffix
  rw [if_neg (by omega)]

theorem save_loop_sound (save_dir ts fmt : String) (files : List String) :
    ∀ fuel count p k, 1 ≤ count →
      save_loop save_dir ts fmt files fuel count (countSuffix count) = some (p, k) →
      count ≤ k
      ∧ p = candidatePath save_dir ts (countSuffix k) fmt
      ∧ p ∉ files
      ∧ ∀ j, count ≤ j → j < k → candidatePath save_dir ts (countSuffix j) fmt ∈ files := by
  intro fuel
  induction fuel with
  | zero => intro count p k hc h; exact absurd h (by simp [save_loop])
  | succ fuel ih =>
    intro count p k hc h
    simp only [save_loop] at h
    by_cases hmem : candidatePath save_dir ts (countSuffix count) fmt ∈ files
    · rw [if_pos hmem, countSuffix_succ count hc] at h
      obtain ⟨h1, h2, h3, h4⟩ := ih (count + 1) p k (by omega) h
      refine ⟨by omega, h2, h3, ?_⟩
      intro j hj1 hj2
      by_cases hj : j = count
      · subst hj; exact hmem
      · exact h4 j (by omega) hj2
    · rw [if_neg hmem] at h
      injection h with h2
      have hp : p = candidatePath save_dir ts (countSuffix count) fmt :=
        (congrArg Prod.fst h2).symm
      have hk : k = count := (congrArg Prod.snd h2).symm
      subst hp hk
      exact ⟨Nat.le_refl _, rfl, hmem, fun j hj1 hj2 => absurd hj2 (by omega)⟩

theorem save_loop_eval (save_dir ts fmt : String) (files : List String) :
    ∀ fuel count k, 1 ≤ count → count ≤ k → k < count + fuel →
      (∀ j, count ≤ j → j < k → candidatePath save_dir ts (countSuffix j) fmt ∈ files) →
      candidatePath save_dir ts (countSuffix k) fmt ∉ files →
      save_loop save_dir ts fmt files fuel count (countSuffix count)
        = some (candidatePath save_dir ts (countSuffix k) fmt, k) := by
  intro fuel
  induction fuel with
  | zero => intro count k h1 h2 h3 h4 h5; omega
  | succ fuel ih =>
    intro count k h1 h2 h3 hmem hfree
    simp only [save_loop]
    by_cases hck : k = count
    · subst hck
      rw [if_neg hfree]
    · have hcmem : candidatePath save_dir ts (countSuffix count) fmt ∈ files :=
        hmem count (Nat.le_refl _) (by omega)
      rw [if_pos hcmem, countSuffix_succ count h1]
      exact ih (count + 1) k (by omega) (by omega) (by omega)
        (fun j hj1 hj2 => hmem j (by omega) hj2) hfree

theorem save_loop_none_all_taken (save_dir ts fmt : String) (files : List String) :
    ∀ fuel count, 1 ≤ count →
      save_loop save_dir ts fmt files fuel count (countSuffix count) = none →
      ∀ j, count ≤ j → j < count + fuel →
        candidatePath save_dir ts (countSuffix j) fmt ∈ files := by
  intro fuel
  induction fuel with
  | zero => intro count h1 h j hj1 hj2; omega
  | succ fuel ih =>
    intro count h1 h j hj1 hj2
    simp only [save_loop] at h
    by_cases hmem : candidatePath save_dir ts (countSuffix count) fmt ∈ files
    · rw [if_pos hmem, countSuffix_succ count h1] at h
      by_cases hj : j = count
      · subst hj; exact hmem
      · exact ih (count + 1) (by omega) h j (by omega) (by omega)
    · rw [if_neg hmem] at h
      exact absurd h (by simp)

theorem save_loop_total (save_dir ts fmt : String) (files : List String) :
    save_loop save_dir ts fmt files (files.length + 1) 1 (countSuffix 1) ≠ none := by
  intro hnone
  have htaken := save_loop_none_all_taken save_dir ts fmt files
    (files.length + 1) 1 (Nat.le_refl 1) hnone
  have hnodup : ((List.range (files.length + 1)).map
      (fun i => candidatePath save_dir ts (countSuffix (i + 1)) fmt)).Nodup := by
    refine List.Nodup.map_on ?_ (List.nodup_range _)
    intro x hx y hy hxy
    have hsuf := candidatePath_inj_suffix save_dir ts fmt _ _ hxy
    have := countSuffix_inj (x + 1) (y + 1) (by omega) (by omega) hsuf
    omega
  have hsub : ((List.range (files.length + 1)).map
      (fun i => candidatePath save_dir ts (countSuffix (i + 1)) fmt)) ⊆ files := by
    intro p hp
    obtain ⟨i, hi, rfl⟩ := List.mem_map.mp hp
    have hi2 : i < files.length + 1 := List.mem_range.mp hi
    exact htaken (i + 1) (by omega) (by omega)
  have hle := (hnodup.subperm hsub).length_le
  rw [List.length_map, List.length_range] at hle
  omega

theorem imwrite_ok (fs : FileSystem) (dir ext path : String)
    (hfmt : imageioWritableExt ext = true) (hdir : fs.dirExists dir = true)
    (hw : fs.dirWritable dir = true) :
    imwrite fs dir ext path = .ok { fs with files := path :: fs.files } := by
  unfold imwrite
  rw [hfmt, hdir, hw]
  simp

theorem imwrite_bad_ext (fs : FileSystem) (dir ext path : String)
    (hdir : fs.dirExists dir = true) (h : imageioWritableExt ext = false) :
    imwrite fs dir ext path = .error .valueError := by
  unfold imwrite
  rw [hdir, h]
  simp

theorem imwrite_no_dir (fs : FileSystem) (dir ext path : String)
    (h : fs.dirExists dir = false) :
    imwrite fs dir ext path = .error .fileNotFoundError := by
  unfold imwrite
  rw [h]
  simp

theorem imwrite_unwritable (fs : FileSystem) (dir ext path : String)
    (hfmt : imageioWritableExt ext = true) (hdir : fs.dirExists dir = true)
    (h : fs.dirWritable dir = false) :
    imwrite fs dir ext path = .error .permissionError := by
  unfold imwrite
  rw [hfmt, hdir, h]
  simp

/-- Claim C4: save_screenshot derives the candidate filename from the current
timestamp string by replacing every ':', '.' and space with '-' and appending
the extension; whenever the candidate path already exists it retries with the
suffixes _2, _3, … (monotonically increasing, starting at 2, placed before the
extension) until a free name is found; the path recorded in image_file_path is
the final path actually written.  In particular, three saves within the same
timestamp resolution into the same directory yield three distinct files, the
second bearing _2 and the third _3. -/
theorem save_screenshot_collision_free (s : ScreenshotState) (fs : FileSystem)
    (hfmt : imageioWritableExt s.file_format = true)
    (hdir : fs.dirExists s.save_dir = true)
    (hw : fs.dirWritable s.save_dir = true) :
    (∀ c ∈ (sanitizeTimestamp fs.now).data, c ≠ ':' ∧ c ≠ '.' ∧ c ≠ ' ')
    ∧ (∃ p k, 1 ≤ k
        ∧ p = candidatePath s.save_dir fs.now (countSuffix k) s.file_format
        ∧ p ∉ fs.files
        ∧ (∀ j, 1 ≤ j → j < k →
            candidatePath s.save_dir fs.now (countSuffix j) s.file_format ∈ fs.files)
        ∧ save_screenshot s fs =
            { exn := none, state := { s with image_file_path := some p },
              fs := { fs with files := p :: fs.files } })
    ∧ (∀ c1 c2 c3 : String,
        c1 = candidatePath s.save_dir fs.now (countSuffix 1) s.file_format →
        c2 = candidatePath s.save_dir fs.now (countSuffix 2) s.file_format →
        c3 = candidatePath s.save_dir fs.now (countSuffix 3) s.file_format →
        c1 ∉ fs.files → c2 ∉ fs.files → c3 ∉ fs.files →
        c1 ≠ c2 ∧ c1 ≠ c3 ∧ c2 ≠ c3
        ∧ countSuffix 2 = "_2" ∧ countSuffix 3 = "_3"
        ∧ save_screenshot s fs =
            { exn := none, state := { s with image_file_path := some c1 },
              fs := { fs with files := c1 :: fs.files } }
        ∧ save_screenshot { s with image_file_path := some c1 }
              { fs with files := c1 :: fs.files } =
            { exn := none, state := { s with image_file_path := some c2 },
              fs := { fs with files := c2 :: c1 :: fs.files } }
        ∧ save_screenshot { s with image_file_path := some c2 }
              { fs with files := c2 :: c1 :: fs.files } =
            { exn := none, state := { s with image_file_path := some c3 },
              fs := { fs with files := c3 :: c2 :: c1 :: fs.files } }) := by
  have h1 : countSuffix 1 = "" := rfl
  refine ⟨?_, ?_, ?_⟩
  · intro c hc
    unfold sanitizeTimestamp at hc
    obtain ⟨c2, hc2, rfl⟩ := List.mem_map.mp hc
    unfold subSeparator
    split_ifs with hcc
    · exact ⟨by decide, by decide, by decide⟩
    · push_neg at hcc
      exact ⟨hcc.1, hcc.2.1, hcc.2.2⟩
  · have htot := save_loop_total s.save_dir fs.now s.file_format fs.files
    rw [h1] at htot
    cases hloop : save_loop s.save_dir fs.now s.file_format fs.files
        (fs.files.length + 1) 1 "" with
    | none => exact absurd hloop htot
    | some pk =>
      obtain ⟨p, k⟩ := pk
      obtain ⟨hk1, hp, hpfree, hprev⟩ :=
        save_loop_sound s.save_dir fs.now s.file_format fs.files
          (fs.files.length + 1) 1 p k (Nat.le_refl 1) (by rw [h1]; exact hloop)
      refine ⟨p, k, hk1, hp, hpfree, hprev, ?_⟩
      unfold save_screenshot
      rw [hloop]
      dsimp only
      rw [imwrite_ok fs s.save_dir s.file_format p hfmt hdir hw]
  · intro c1 c2 c3 e1 e2 e3 f1 f2 f3
    have hne12 : c1 ≠ c2 := by
      intro h
      rw [e1, e2] at h
      have := countSuffix_inj 1 2 (by omega) (by omega)
        (candidatePath_inj_suffix _ _ _ _ _ h)
      omega
    have hne13 : c1 ≠ c3 := by
      intro h
      rw [e1, e3] at h
      have := countSuffix_inj 1 3 (by omega) (by omega)
        (candidatePath_inj_suffix _ _ _ _ _ h)
      omega
    have hne23 : c2 ≠ c3 := by
      intro h
      rw [e2, e3] at h
      have := countSuffix_inj 2 3 (by omega) (by omega)
        (candidatePath_inj_suffix _ _ _ _ _ h)
      omega
    have hsave1 : save_screenshot s fs =
        { exn := none, state := { s with image_file_path := some c1 },
          fs := { fs with files := c1 :: fs.files } } := by
      unfold save_screenshot
      have hloop1 : save_loop s.save_dir fs.now s.file_format fs.files
          (fs.files.length + 1) 1 "" = some (c1, 1) := by
        have hev := save_loop_eval s.save_dir fs.now s.file_format fs.files
          (fs.files.length + 1) 1 1 (Nat.le_refl 1) (Nat.le_refl 1) (by omega)
          (fun j hj1 hj2 => absurd hj2 (by omega)) (by rw [← e1]; exact f1)
        rw [h1] at hev
        rw [e1, h1]
        exact hev
      rw [hloop1]
      dsimp only
      rw [imwrite_ok fs s.save_dir s.file_format c1 hfmt hdir hw]
    have hsave2 : save_screenshot { s with image_file_path := some c1 }
        { fs with files := c1 :: fs.files } =
        { exn := none, state := { s with image_file_path := some c2 },
          fs := { fs with files := c2 :: c1 :: fs.files } } := by
      unfold save_screenshot
      dsimp only
      have hloop2 : save_loop s.save_dir fs.now s.file_format (c1 :: fs.files)
          ((c1 :: fs.files).length + 1) 1 "" = some (c2, 2) := by
        have hev := save_loop_eval s.save_dir fs.now s.file_format (c1 :: fs.files)
          ((c1 :: fs.files).length + 1) 1 2 (Nat.le_refl 1) (by omega)
          (by simp only [List.length_cons]; omega)
          (fun j hj1 hj2 => by
            have hj : j = 1 := by omega
            subst hj
            rw [← e1]
            exact List.mem_cons_self c1 fs.files)
          (by
            rw [← e2]
            simp only [List.mem_cons]
            push_neg
            exact ⟨hne12.symm, f2⟩)
        rw [h1] at hev
        rw [e2]
        exact hev
      rw [hloop2]
      dsimp only
      rw [imwrite_ok { fs with files := c1 :: fs.files } s.save_dir s.file_format c2 hfmt hdir hw]
    have hsave3 : save_screenshot { s with image_file_path := some c2 }
        { fs with files := c2 :: c1 :: fs.files } =
        { exn := none, state := { s with image_file_path := some c3 },
          fs := { fs with files := c3 :: c2 :: c1 :: fs.files } } := by
      unfold save_screenshot
      dsimp only
      have hloop3 : save_loop s.save_dir fs.now s.file_format (c2 :: c1 :: fs.files)
          ((c2 :: c1 :: fs.files).length + 1) 1 "" = some (c3, 3) := by
        have hev := save_loop_eval s.save_dir fs.now s.file_format (c2 :: c1 :: fs.files)
          ((c2 :: c1 :: fs.files).length + 1) 1 3 (Nat.le_refl 1) (by omega)
          (by simp only [List.length_cons]; omega)
          (fun j hj1 hj2 => by
            have hj : j = 1 ∨ j = 2 := by omega
            rcases hj with hj | hj <;> subst hj
            · rw [← e1]
              simp [List.mem_cons]
            · rw [← e2]
              exact List.mem_cons_self c2 (c1 :: fs.files))
          (by
            rw [← e3]
            simp only [List.mem_cons]
            push_neg
            exact ⟨hne23.symm, hne13.symm, f3⟩)
        rw [h1] at hev
        rw [e3]
        exact hev
      rw [hloop3]
      dsimp only
      rw [imwrite_ok { fs with files := c2 :: c1 :: fs.files } s.save_dir s.file_format c3 hfmt hdir hw]
    exact ⟨hne12, hne13, hne23, rfl, rfl, hsave1, hsave2, hsave3⟩

/-- A file system with an empty save directory where every directory exists
and is writable, at a fixed timestamp. -/
def testFS : FileSystem :=
  { files := [], dirExists := fun _ => true, dirWritable := fun _ => true,
    now := "2024-01-02 03:04:05.678901" }

/-- Concrete instance of save_screenshot_collision_free: saving the test state
into the empty test file system. -/
theorem save_screenshot_collision_free_witness :
    imageioWritableExt testCroppedState.file_format = true
    ∧ (∃ p k, 1 ≤ k
        ∧ p = candidatePath testCroppedState.save_dir testFS.now (countSuffix k)
            testCroppedState.file_format
        ∧ p ∉ testFS.files
        ∧ (∀ j, 1 ≤ j → j < k →
            candidatePath testCroppedState.save_dir testFS.now (countSuffix j)
              testCroppedState.file_format ∈ testFS.files)
        ∧ save_screenshot testCroppedState testFS =
            { exn := none,
              state := { testCroppedState with image_file_path := some p },
              fs := { testFS with files := p :: testFS.files } }) :=
  ⟨rfl, (save_screenshot_collision_free testCroppedState testFS rfl rfl rfl).2.1⟩

/-- A screenshot state configured with the format string tiff, which is
outside the application's SupportedImageFormats. -/
def tiffState : ScreenshotState :=
  { save_dir := "shots", file_format := "tiff", image := some testRaster,
    image_file_path := none }

/-- Claim C5 counterexample: tiff is not in the application's supported format
set, yet save_screenshot does not raise InvalidFileFormat — it succeeds and
writes a file, because the imageio library resolves a tiff writer.  The
supported set is enforced only by settings validation, which save_screenshot
never consults. -/
theorem save_screenshot_tiff_cex :
    "tiff" ∉ SupportedImageFormats
    ∧ (save_screenshot tiffState testFS).exn = none
    ∧ (save_screenshot tiffState testFS).fs.files.length = 1 := by
  exact ⟨by decide, rfl, rfl⟩

/-- Claim C5 amended: when the target directory exists, save_screenshot
raises InvalidFileFormat — writing no file and leaving the object untouched —
exactly for format strings the imageio library has no writer for (such as
xyz); a missing directory takes precedence and yields InvalidFilePathError
instead, because imageio checks the directory before resolving a writer.  A
format outside the application's SupportedImageFormats that imageio can
nevertheless write, such as tiff, is saved successfully.  The supported-set
restriction is enforced at settings-validation time only, not inside
save_screenshot. -/
theorem save_screenshot_unwritable_format (s : ScreenshotState) (fs : FileSystem)
    (hdir : fs.dirExists s.save_dir = true)
    (h : imageioWritableExt s.file_format = false) :
    save_screenshot s fs = { exn := some .invalidFileFormat, state := s, fs := fs } := by
  have htot := save_loop_total s.save_dir fs.now s.file_format fs.files
  rw [show countSuffix 1 = "" from rfl] at htot
  unfold save_screenshot
  cases hloop : save_loop s.save_dir fs.now s.file_format fs.files
      (fs.files.length + 1) 1 "" with
  | none => exact absurd hloop htot
  | some pk =>
    obtain ⟨p, k⟩ := pk
    dsimp only
    rw [imwrite_bad_ext fs s.save_dir s.file_format p hdir h]

/-- A screenshot state configured with the format string xyz, for which no
imageio writer exists. -/
def badFormatState : ScreenshotState :=
  { save_dir := "shots", file_format := "xyz", image := some testRaster,
    image_file_path := none }

/-- Concrete instance of save_screenshot_unwritable_format at the format
string xyz, in an existing directory. -/
theorem save_screenshot_unwritable_format_witness :
    testFS.dirExists badFormatState.save_dir = true
    ∧ imageioWritableExt badFormatState.file_format = false
    ∧ save_screenshot badFormatState testFS =
        { exn := some .invalidFileFormat, state := badFormatState, fs := testFS } :=
  ⟨rfl, rfl, save_screenshot_unwritable_format badFormatState testFS rfl rfl⟩

/-- A file system whose directories all exist but none is writable. -/
def readOnlyFS : FileSystem :=
  { files := [], dirExists := fun _ => true, dirWritable := fun _ => false,
    now := "2024-01-02 03:04:05.678901" }

/-- Claim C6 counterexample: saving into a directory that exists but is not
writable does not produce InvalidFilePathError — the underlying
PermissionError is not among the exceptions save_screenshot catches, so it
propagates as-is. -/
theorem save_screenshot_unwritable_dir_cex :
    (save_screenshot testCroppedState readOnlyFS).exn = some PyExn.permissionError
    ∧ PyExn.permissionError ≠ PyExn.invalidFilePath := by
  exact ⟨rfl, by decide⟩

/-- Claim C6 amended: when the target directory does not exist,
save_screenshot fails with InvalidFilePathError, writes no file, and leaves
the object untouched; when the directory exists but is not writable, the
resulting PermissionError is not translated — it propagates unchanged (still
writing no file), because save_screenshot catches only ValueError and
FileNotFoundError. -/
theorem save_screenshot_dir_errors (s : ScreenshotState) (fs : FileSystem)
    (hfmt : imageioWritableExt s.file_format = true) :
    (fs.dirExists s.save_dir = false →
      save_screenshot s fs = { exn := some .invalidFilePath, state := s, fs := fs })
    ∧ (fs.dirExists s.save_dir = true → fs.dirWritable s.save_dir = false →
      save_screenshot s fs = { exn := some .permissionError, state := s, fs := fs }) := by
  have htot := save_loop_total s.save_dir fs.now s.file_format fs.files
  rw [show countSuffix 1 = "" from rfl] at htot
  constructor
  · intro hdir
    unfold save_screenshot
    cases hloop : save_loop s.save_dir fs.now s.file_format fs.files
        (fs.files.length + 1) 1 "" with
    | none => exact absurd hloop htot
    | some pk =>
      obtain ⟨p, k⟩ := pk
      dsimp only
      rw [imwrite_no_dir fs s.save_dir s.file_format p hdir]
  · intro hdir hwrit
    unfold save_screenshot
    cases hloop : save_loop s.save_dir fs.now s.file_format fs.files
        (fs.files.length + 1) 1 "" with
    | none => exact absurd hloop htot
    | some pk =>
      obtain ⟨p, k⟩ := pk
      dsimp only
      rw [imwrite_unwritable fs s.save_dir s.file_format p hfmt hdir hwrit]

/-- A file system in which no directory exists. -/
def noDirFS : FileSystem :=
  { files := [], dirExists := fun _ => false, dirWritable := fun _ => false,
    now := "2024-01-02 03:04:05.678901" }

/-- Concrete instance of save_screenshot_dir_errors: a png save into a missing
directory and into a read-only directory. -/
theorem save_screenshot_dir_errors_witness :
    imageioWritableExt testCroppedState.file_format = true
    ∧ (noDirFS.dirExists testCroppedState.save_dir = false →
        save_screenshot testCroppedState noDirFS =
          { exn := some .invalidFilePath, state := testCroppedState, fs := noDirFS })
    ∧ (readOnlyFS.dirExists testCroppedState.save_dir = true →
        readOnlyFS.dirWritable testCroppedState.save_dir = false →
        save_screenshot testCroppedState readOnlyFS =
          { exn := some .permissionError, state := testCroppedState, fs := readOnlyFS }) :=
  ⟨rfl, (save_screenshot_dir_errors testCroppedState noDirFS rfl).1,
        (save_screenshot_dir_errors testCroppedState readOnlyFS rfl).2⟩

/-- Claim C9: whenever save_screenshot raises any error, the call is
atomic-or-nothing: the file system is unchanged (no file is left behind) and
the object's attributes — in particular image and image_file_path — retain the
values they had before the call. -/
theorem save_screenshot_failure_atomic (s : ScreenshotState) (fs : FileSystem)
    (e : PyExn) (h : (save_screenshot s fs).exn = some e) :
    (save_screenshot s fs).state = s ∧ (save_screenshot s fs).fs = fs := by
  unfold save_screenshot at h ⊢
  cases hloop : save_loop s.save_dir fs.now s.file_format fs.files
      (fs.files.length + 1) 1 "" with
  | none => exact ⟨rfl, rfl⟩
  | some pk =>
    obtain ⟨p, k⟩ := pk
    rw [hloop] at h
    dsimp only at h ⊢
    cases hwr : imwrite fs s.save_dir s.file_format p with
    | ok fs2 =>
      rw [hwr] at h
      dsimp only at h
      exact absurd h (by simp)
    | error e2 =>
      rw [hwr] at h
      cases e2 <;> exact ⟨rfl, rfl⟩

/-- Concrete instance of save_screenshot_failure_atomic: the failing xyz-format
save leaves both the object and the file system untouched. -/
theorem save_screenshot_failure_atomic_witness :
    (save_screenshot badFormatState testFS).exn = some PyExn.invalidFileFormat
    ∧ (save_screenshot badFormatState testFS).state = badFormatState
    ∧ (save_screenshot badFormatState testFS).fs = testFS :=
  ⟨rfl, save_screenshot_failure_atomic badFormatState testFS PyExn.invalidFileFormat rfl⟩

/-- MonitorScreenshot.edit_screenshot: the method body is empty apart from its
docstring, and its *args and **kwargs are never read, so the object is
returned untouched whatever arguments are supplied. -/
def monitor_edit_screenshot (s : ScreenshotState) : ScreenshotState := s

/-- The state of a screenshot widget and the surrounding GUI that the claims
refer to: the backend Screenshot object, how many CroppingWindow selectors are
currently open in this application instance, and the enable_sound setting. -/
structure WidgetState where
  backend : ScreenshotState
  openCroppingWindows : Nat
  enable_sound : Bool

/-- The prefix of CroppedScreenshotWidget.create_screenshot that runs before
the modal wait inside mark_cropping_box: take_screenshot stores the captured
raster, then a CroppingWindow is constructed and opened.  The construction is
unconditional — the method contains no check of whether another selector is
already open. -/
def cropped_trigger_enter (w : WidgetState) (captured : Raster) : WidgetState :=
  { w with backend := { w.backend with image := some captured },
           openCroppingWindows := w.openCroppingWindows + 1 }

/-- A widget state in which one CroppingWindow selector is already open. -/
def oneSelectorOpen : WidgetState :=
  { backend := testCroppedState, openCroppingWindows := 1, enable_sound := false }

/-- Claim C7 counterexample: with one selector already open, a new cropped
trigger is not ignored as a no-op — it opens a second CroppingWindow, reaching
a state with two modal selectors open at once. -/
theorem cropped_trigger_reentrancy_cex :
    oneSelectorOpen.openCroppingWindows = 1
    ∧ (cropped_trigger_enter oneSelectorOpen testRaster).openCroppingWindows = 2 :=
  ⟨rfl, rfl⟩

/-- Claim C7 amended: CroppedScreenshotWidget.create_screenshot has no
re-entrancy guard: every cropped-capture trigger unconditionally takes a
screenshot and opens one more CroppingWindow, whatever the number already
open.  A trigger arriving while a selection is open is therefore not ignored
(the tk event grab blocks in-application mouse input such as the button, but
the global hotkey dispatch is outside tk and is not blocked), and a state with
two open modal selectors is reachable.  Full captures open no selector. -/
theorem cropped_trigger_no_guard (w : WidgetState) (captured : Raster) :
    (cropped_trigger_enter w captured).openCroppingWindows = w.openCroppingWindows + 1
    ∧ (cropped_trigger_enter w captured).backend.image = some captured :=
  ⟨rfl, rfl⟩

/-- Result of one create_screenshot run: the exception propagated, if any, the
final widget state, the file system afterwards, and whether the notification
sound was triggered.  pygame's Sound.play reports playback failure through its
return value (None instead of a Channel); the code discards that value, so the
soundOk argument of the pipelines below — whether playback would succeed — is
deliberately unused by the modelled code. -/
structure SessionOutcome where
  exn : Option PyExn
  widget : WidgetState
  fs : FileSystem
  soundPlayed : Bool

/-- Shared tail of both create_screenshot pipelines, after the save call: a
raised exception propagates (the widget keeps whatever state the backend ended
in); on success the image is discarded (self.backend.image = None) and the
notification sound is triggered when the enable_sound setting is on. -/
def finishSession (w : WidgetState) (out : SaveOutcome) : SessionOutcome :=
  match out.exn with
  | some e =>
    { exn := some e, widget := { w with backend := out.state }, fs := out.fs,
      soundPlayed := false }
  | none =>
    { exn := none, widget := { w with backend := { out.state with image := none } },
      fs := out.fs, soundPlayed := w.enable_sound }

/-- FullScreenshotWidget.create_screenshot: take_screenshot, edit_screenshot
(a no-op on MonitorScreenshot), save_screenshot, discard the image, then —
only after a fully successful save — play the notification sound when the
enable_sound setting is on. -/
def full_create_screenshot (w : WidgetState) (fs : FileSystem) (captured : Raster)
    (soundOk : Bool) : SessionOutcome :=
  finishSession w (save_screenshot
    (monitor_edit_screenshot { w.backend with image := some captured }) fs)

/-- The full-monitor pipeline with the edit stage removed altogether; used to
state that the empty edit stage contributes nothing. -/
def full_create_noedit (w : WidgetState) (fs : FileSystem) (captured : Raster)
    (soundOk : Bool) : SessionOutcome :=
  finishSession w (save_screenshot { w.backend with image := some captured } fs)

/-- CroppedScreenshotWidget.create_screenshot: take_screenshot, open a
CroppingWindow and run mark_cropping_box on the press corner (a, b) and the
release corner (c, d) — the window closes itself before the box is returned —
then edit_screenshot with that box, save_screenshot, discard the image, and
play the sound when enabled.  An exception from the edit stage aborts the
session before any save is attempted. -/
def cropped_create_screenshot (w : WidgetState) (fs : FileSystem) (captured : Raster)
    (a b c d : Int) (soundOk : Bool) : SessionOutcome :=
  let edited := cropped_edit_screenshot { w.backend with image := some captured }
    (mark_cropping_box a b c d)
  match edited.exn with
  | some e =>
    { exn := some e, widget := { w with backend := edited.state }, fs := fs,
      soundPlayed := false }
  | none => finishSession w (save_screenshot edited.state fs)

theorem finishSession_exn (w : WidgetState) (out : SaveOutcome) :
    (finishSession w out).exn = out.exn := by
  unfold finishSession
  cases hx : out.exn <;> rfl

theorem finishSession_path (w : WidgetState) (out : SaveOutcome) (h : out.exn = none) :
    (finishSession w out).widget.backend.image_file_path = out.state.image_file_path := by
  unfold finishSession
  rw [h]

theorem save_screenshot_success_path (s : ScreenshotState) (fs : FileSystem)
    (ho : (save_screenshot s fs).exn = none) :
    ∃ p, (save_screenshot s fs).state.image_file_path = some p := by
  unfold save_screenshot at ho ⊢
  cases hloop : save_loop s.save_dir fs.now s.file_format fs.files
      (fs.files.length + 1) 1 "" with
  | none =>
    rw [hloop] at ho
    simp at ho
  | some pk =>
    obtain ⟨p, k⟩ := pk
    rw [hloop] at ho
    dsimp only at ho ⊢
    cases hwr : imwrite fs s.save_dir s.file_format p with
    | ok fs2 => exact ⟨p, rfl⟩
    | error e2 =>
      rw [hwr] at ho
      cases e2 <;> simp at ho

theorem cropped_tail_exn_path (w : WidgetState) (fs : FileSystem) (ed : Outcome)
    (ho : (match ed.exn with
      | some e =>
        ({ exn := some e, widget := { w with backend := ed.state }, fs := fs,
           soundPlayed := false } : SessionOutcome)
      | none => finishSession w (save_screenshot ed.state fs)).exn = none) :
    ∃ p, (match ed.exn with
      | some e =>
        ({ exn := some e, widget := { w with backend := ed.state }, fs := fs,
           soundPlayed := false } : SessionOutcome)
      | none => finishSession w (save_screenshot ed.state fs)).widget.backend.image_file_path
        = some p := by
  cases hx : ed.exn with
  | some e =>
    rw [hx] at ho
    simp at ho
  | none =>
    rw [hx] at ho
    dsimp only at ho ⊢
    rw [finishSession_exn] at ho
    rw [finishSession_path _ _ ho]
    exact save_screenshot_success_path _ fs ho

/-- Claim C8: a failure of the notification-sound playback can never block or
fail a capture session.  Both create_screenshot pipelines are entirely
independent of whether playback would succeed — the play call is
fire-and-forget, pygame signalling failure only through a return value the
code discards — and no error anywhere in either pipeline is caught and
swallowed; whenever a session reaches a successful save it completes with its
recorded file path whatever the playback outcome. -/
theorem sound_failure_never_fails_session :
    (∀ (w : WidgetState) (fs : FileSystem) (captured : Raster) (ok1 ok2 : Bool),
      full_create_screenshot w fs captured ok1 = full_create_screenshot w fs captured ok2)
    ∧ (∀ (w : WidgetState) (fs : FileSystem) (captured : Raster) (a b c d : Int)
        (ok1 ok2 : Bool),
      cropped_create_screenshot w fs captured a b c d ok1
        = cropped_create_screenshot w fs captured a b c d ok2)
    ∧ (∀ (w : WidgetState) (fs : FileSystem) (captured : Raster) (ok : Bool),
      (full_create_screenshot w fs captured ok).exn = none →
      ∃ p, (full_create_screenshot w fs captured ok).widget.backend.image_file_path = some p)
    ∧ (∀ (w : WidgetState) (fs : FileSystem) (captured : Raster) (a b c d : Int) (ok : Bool),
      (cropped_create_screenshot w fs captured a b c d ok).exn = none →
      ∃ p, (cropped_create_screenshot w fs captured a b c d ok).widget.backend.image_file_path
        = some p) := by
  refine ⟨fun w fs captured ok1 ok2 => rfl, fun w fs captured a b c d ok1 ok2 => rfl, ?_, ?_⟩
  · intro w fs captured ok ho
    have hrfl : full_create_screenshot w fs captured ok
        = finishSession w (save_screenshot
            (monitor_edit_screenshot { w.backend with image := some captured }) fs) := rfl
    rw [hrfl] at ho ⊢
    rw [finishSession_exn] at ho
    rw [finishSession_path _ _ ho]
    exact save_screenshot_success_path _ fs ho
  · intro w fs captured a b c d ok ho
    exact cropped_tail_exn_path w fs _ ho

/-- A widget state for the full-monitor pipeline, sound enabled, no selector
open. -/
def fullWidget : WidgetState :=
  { backend := { save_dir := "shots", file_format := "png", image := none,
                 image_file_path := none },
    openCroppingWindows := 0, enable_sound := true }

/-- Concrete instance of sound_failure_never_fails_session: a full capture
into the empty test file system behaves identically under failing and
succeeding playback, and its successful run records a file path. -/
theorem sound_failure_never_fails_session_witness :
    full_create_screenshot fullWidget testFS testRaster false
      = full_create_screenshot fullWidget testFS testRaster true
    ∧ ((full_create_screenshot fullWidget testFS testRaster false).exn = none →
      ∃ p, (full_create_screenshot fullWidget testFS testRaster false).widget.backend.image_file_path
        = some p) :=
  ⟨sound_failure_never_fails_session.1 fullWidget testFS testRaster false true,
   sound_failure_never_fails_session.2.2.1 fullWidget testFS testRaster false⟩

/-- Claim C10: MonitorScreenshot.edit_screenshot is a no-op for every
argument: the object — its image, save_dir, file_format and image_file_path —
is returned unchanged, and consequently the full-monitor pipeline persists
exactly the raster take_screenshot produced: removing the edit stage from the
pipeline yields the very same function. -/
theorem monitor_edit_screenshot_noop :
    (∀ s : ScreenshotState, monitor_edit_screenshot s = s)
    ∧ (∀ (w : WidgetState) (fs : FileSystem) (captured : Raster) (ok : Bool),
        full_create_screenshot w fs captured ok = full_create_noedit w fs captured ok) :=
  ⟨fun s => rfl, fun w fs captured ok => rfl⟩
